import Mathlib

/-!
Verification development for the ingest-companies-people ingestion pipeline.

Shallow embedding of the pipeline's core modules:
  * `src/cors-template/api/client.js` — the axios transport client factory
    (`createRenderApiClient`) with its response interceptor: retry logic for
    network errors and enhanced error categorization;
  * `src/utils/parseCsv.ts` — `parseFile` and `parseGoogleSheetUrl`;
  * `src/services/services.js` — `postMarketingCompanies`, `uploadRecords`;
  * `src/components/IngestionForm.tsx` — `handleSubmit`;
  * `src/cors-template/api/client.js` — `formatRenderPayload`;
  * `src/cors-template/utils/payloadFormatter.js` — `formatRenderInsertPayload`;
  * `src/components/RecordPreviewTable.tsx` — preview columns and rows.

JavaScript objects are modelled as association lists of string keys to a
scalar value type `JsVal`; `undefined` is modelled with `Option`, and the
relevant quirks of JavaScript (truthiness for `||` and `!`, the fact that
`undefined < n` is `false`) are modelled explicitly where the code relies
on them.
-/

namespace Ingest

/-- A scalar JavaScript value as it occurs in parsed records and response
bodies: string, number, boolean, `null` or `undefined`. -/
inductive JsVal where
  | str (s : String)
  | num (n : Int)
  | boolean (b : Bool)
  | jnull
  | undef
deriving Repr, DecidableEq

/-- JavaScript truthiness of a scalar value. -/
def truthy : JsVal → Bool
  | .str s => !s.isEmpty
  | .num n => n != 0
  | .boolean b => b
  | .jnull => false
  | .undef => false

/-- A record: one parsed row, an ordered mapping from field names to scalar
values (a JS object in the source). -/
abbrev JsRecord := List (String × JsVal)

/-- `Object.keys` of a record: its field names in order. -/
def JsRecord.keys (r : JsRecord) : List String := r.map Prod.fst

/-- Property lookup `r[k]`: the first binding of `k`, `none` for `undefined`. -/
def JsRecord.get : JsRecord → String → Option JsVal
  | [], _ => none
  | (a, b) :: t, k => if a = k then some b else JsRecord.get t k

/-! ## Transport client: `createRenderApiClient` (src/cors-template/api/client.js)

The response interceptor's error handler is driven by the axios error it
receives per attempt.  We model one logical request as a list of per-attempt
outcomes supplied by the network, consumed left to right. -/

/-- An HTTP response as seen through an axios error (`error.response`). -/
structure HttpResponse where
  status : Nat
  statusText : String
  body : JsVal
deriving Repr, DecidableEq

/-- An axios error: its `code` (for example "ERR_NETWORK", "ECONNABORTED",
"ERR_BAD_REQUEST"), `message`, and the response when one was received.
A network-class failure carries no response. -/
structure AxiosErr where
  code : String
  message : String
  response : Option HttpResponse
deriving Repr, DecidableEq

/-- What the network does on one attempt of the request. -/
inductive AttemptOutcome where
  | ok (resp : HttpResponse)
  | fail (e : AxiosErr)
deriving Repr, DecidableEq

/-- The enhanced error object built by the response interceptor
(client.js lines 100-116). -/
structure EnhancedError where
  message : String
  status : Option Nat
  statusText : Option String
  data : Option JsVal
  isCorsError : Bool
  isNetworkError : Bool
  isTimeout : Bool
  retryCount : Nat
deriving Repr, DecidableEq

/-- `error.response?.status === 0` : `undefined === 0` is `false`. -/
def statusIsZero : Option HttpResponse → Bool
  | none => false
  | some r => r.status == 0

/-- client.js lines 100-116: the enhanced error categorization.
`rc` is `originalRequest._retryCount`, `none` when still `undefined`. -/
def enhancedErrorOf (e : AxiosErr) (rc : Option Nat) : EnhancedError :=
  { message := e.message
    status := e.response.map (·.status)
    statusText := e.response.map (·.statusText)
    data := e.response.map (·.body)
    isCorsError := e.code == "ERR_NETWORK" || statusIsZero e.response
    isNetworkError := e.code == "ERR_NETWORK"
    isTimeout := e.code == "ECONNABORTED"
    retryCount := rc.getD 0 }

/-- The JavaScript comparison `x < k` where `x` may be `undefined`
(`originalRequest._retryCount` before it is first assigned):
`undefined < k` evaluates to `false`. -/
def jsLtOpt : Option Nat → Int → Bool
  | none, _ => false
  | some n, k => (n : Int) < k

/-- Result of one logical request through the interceptor: the settled
outcome, how many times the request was resubmitted, and the backoff delay
(ms) awaited before each resubmission. -/
structure RunResult where
  outcome : Except EnhancedError HttpResponse
  retriesPerformed : Nat
  delays : List Nat
deriving Repr

/-- client.js lines 63-133: the response interceptor, iterated over the
attempt outcomes.  `retryFlag` is `originalRequest._retry` (initially
`undefined`, falsy) and `rc` is `originalRequest._retryCount` (initially
`undefined`, modelled `none`).  The retry branch (lines 79-97) fires only
when the error code is "ERR_NETWORK", `_retry` is not yet set and
`_retryCount < retryAttempts - 1`; it then waits
`1000 * 2 ^ (_retryCount - 1)` ms and resubmits.  Otherwise the enhanced
error is built and rejected. -/
def renderInterceptor (retryAttempts : Nat) :
    Bool → Option Nat → List AttemptOutcome → RunResult
  | _, rc, [] =>
    { outcome := .error (enhancedErrorOf ⟨"ERR_NETWORK", "Network Error", none⟩ rc)
      retriesPerformed := 0
      delays := [] }
  | retryFlag, rc, o :: rest =>
    match o with
    | .ok r => { outcome := .ok r, retriesPerformed := 0, delays := [] }
    | .fail e =>
      if e.code == "ERR_NETWORK" && !retryFlag &&
          jsLtOpt rc ((retryAttempts : Int) - 1) then
        let newCount := rc.getD 0 + 1
        let sub := renderInterceptor retryAttempts true (some newCount) rest
        { outcome := sub.outcome
          retriesPerformed := sub.retriesPerformed + 1
          delays := 1000 * 2 ^ (newCount - 1) :: sub.delays }
      else
        { outcome := .error (enhancedErrorOf e rc)
          retriesPerformed := 0
          delays := [] }

/-- One logical request through `createRenderApiClient`'s interceptor,
starting from a fresh config (`_retry` and `_retryCount` undefined). -/
def runRenderRequest (retryAttempts : Nat) (outcomes : List AttemptOutcome) :
    RunResult :=
  renderInterceptor retryAttempts false none outcomes

/-- A repeated network-class failure: no HTTP response, code ERR_NETWORK. -/
def networkFailure : AxiosErr := ⟨"ERR_NETWORK", "Network Error", none⟩

/-- The enhanced error built by `createApiClient` in
src/cors-template/utils/apiClient.ts (lines 45-62); its classification
differs from client.js: `isCorsError` tests the message for "CORS" or the
code for ERR_NETWORK, `isNetworkError` tests the code or a missing response. -/
structure TsEnhancedError where
  message : String
  status : Option Nat
  statusText : Option String
  data : Option JsVal
  isCorsError : Bool
  isNetworkError : Bool
deriving Repr, DecidableEq

/-- `haystack.includes(needle)` on strings, as a character-list scan. -/
def containsSeq (needle : List Char) : List Char → Bool
  | [] => needle.isEmpty
  | c :: rest => needle.isPrefixOf (c :: rest) || containsSeq needle rest

/-- apiClient.ts lines 45-62. -/
def tsEnhancedErrorOf (e : AxiosErr) : TsEnhancedError :=
  { message := e.message
    status := e.response.map (·.status)
    statusText := e.response.map (·.statusText)
    data := e.response.map (·.body)
    isCorsError := containsSeq "CORS".data e.message.data || e.code == "ERR_NETWORK"
    isNetworkError := e.code == "ERR_NETWORK" || e.response.isNone }

/-! ## FormatParser: `parseFile` (src/utils/parseCsv.ts lines 9-93)

The external libraries (Papa.parse, JSON.parse, XLSX) and the FileReader
are modelled as oracles packaged with the file: the file input carries what
each library call would yield on its content.  `parseFile`'s own branching
and result construction are translated from the source. -/

/-- Outcome of a `Papa.parse(.., \x7bheader: true, skipEmptyLines: true\x7d)`
call: the `complete` callback's `result` (its `errors` messages and `data`
rows) or the `error` callback's message. -/
inductive PapaOutcome where
  | complete (errors : List String) (data : List JsRecord)
  | failure (message : String)
deriving Repr, DecidableEq

/-- A decoded JSON value as `parseFile` distinguishes it: an array of
records, or a single non-array value (wrapped into a one element list). -/
inductive JsonValue where
  | arr (records : List JsRecord)
  | single (r : JsRecord)
deriving Repr, DecidableEq

/-- Outcome of `JSON.parse` on the file's text. -/
inductive JsonOutcome where
  | ok (v : JsonValue)
  | err (message : String)
deriving Repr, DecidableEq

/-- Outcome of `XLSX.read` plus `sheet_to_json` on the first sheet. -/
inductive XlsxOutcome where
  | ok (rows : List JsRecord)
  | err (message : String)
deriving Repr, DecidableEq

/-- A file handed to `parseFile`: its name plus what each external parser
would produce on its content. -/
structure FileInput where
  name : String
  papa : PapaOutcome
  readTextOk : Bool
  json : JsonOutcome
  readBufOk : Bool
  xlsx : XlsxOutcome

/-- The `ParseResult` interface of parseCsv.ts: `data` plus an optional
`error` (a `null` error is modelled as `none`, like an absent one). -/
structure ParseResult where
  data : List JsRecord
  error : Option String
deriving Repr, DecidableEq

/-- `file.name.split(".").pop()?.toLowerCase()`. -/
def extensionOf (name : String) : Option String :=
  ((name.splitOn ".").getLast?).map String.toLower

/-- parseCsv.ts lines 9-93: `parseFile`. -/
def parseFile (f : FileInput) : ParseResult :=
  let extension := extensionOf f.name
  if extension == some "csv" then
    match f.papa with
    | .complete errors data =>
      if errors.length > 0 then
        { data := [], error := some ("CSV parsing error: " ++ errors.headD "") }
      else
        { data := data, error := none }
    | .failure msg =>
      { data := [], error := some ("Failed to parse CSV: " ++ msg) }
  else if extension == some "json" then
    if f.readTextOk then
      match f.json with
      | .ok (.arr records) => { data := records, error := none }
      | .ok (.single r) => { data := [r], error := none }
      | .err msg => { data := [], error := some ("Invalid JSON format: " ++ msg) }
    else
      { data := [], error := some "Failed to read JSON file" }
  else if extension == some "xlsx" || extension == some "xls" then
    if f.readBufOk then
      match f.xlsx with
      | .ok rows => { data := rows, error := none }
      | .err msg => { data := [], error := some ("Excel parsing error: " ++ msg) }
    else
      { data := [], error := some "Failed to read Excel file" }
  else
    { data := []
      error := some "Unsupported file format. Please upload CSV, JSON, or Excel files." }

/-! ## SheetImporter: `parseGoogleSheetUrl` (src/utils/parseCsv.ts lines 95-262)

The two regular expressions are embedded as character-list scanners with
the same leftmost-match semantics, and `fetch` is an oracle carried by a
`SheetWorld`.  The run result records every URL GET-ted, in order, so that
network-I/O counts can be stated. -/

/-- A character of the class `[a-zA-Z0-9-_]`. -/
def sheetIdChar (c : Char) : Bool :=
  c.isAlpha || c.isDigit || c == '-' || c == '_'

/-- The literal part of `/\x2fspreadsheets\x2fd\x2f([a-zA-Z0-9-_]+)/`. -/
def sheetMarker : List Char := "/spreadsheets/d/".data

/-- Leftmost match of `url.match(/\x2fspreadsheets\x2fd\x2f([a-zA-Z0-9-_]+)/)`:
the captured group at the first position where the literal marker is
followed by at least one identifier character. -/
def findSheetId : List Char → Option String
  | [] => none
  | c :: rest =>
    if sheetMarker.isPrefixOf (c :: rest) then
      let run := ((c :: rest).drop sheetMarker.length).takeWhile sheetIdChar
      if run.isEmpty then findSheetId rest else some (String.mk run)
    else
      findSheetId rest

/-- The literal part after the `[#&]` class in `/[#&]gid=([0-9]+)/`. -/
def gidMarker : List Char := "gid=".data

/-- Leftmost match of `url.match(/[#&]gid=([0-9]+)/)`: the captured digit
run at the first `#` or `&` followed by `gid=` and at least one digit. -/
def findGid : List Char → Option String
  | [] => none
  | c :: rest =>
    if (c == '#' || c == '&') && gidMarker.isPrefixOf rest then
      let run := (rest.drop gidMarker.length).takeWhile Char.isDigit
      if run.isEmpty then findGid rest else some (String.mk run)
    else
      findGid rest

/-- A settled `fetch` response: `ok`, `status`, `statusText` and the body
text that `response.text()` yields. -/
structure FetchResponse where
  ok : Bool
  status : Nat
  statusText : String
  body : String
deriving Repr, DecidableEq

/-- The outside world of the importer: what `fetch` does on each URL
(`.error msg` models a thrown network error with that message) and what
`Papa.parse(text, \x7bheader: true, skipEmptyLines: true\x7d)` yields on a
body text. -/
structure SheetWorld where
  fetch : String → Except String FetchResponse
  papa : String → PapaOutcome

/-- One run of the importer: its result plus every URL it fetched, in order. -/
structure ImportRun where
  result : ParseResult
  fetched : List String
deriving Repr, DecidableEq

/-- The primary CSV export URL (parseCsv.ts line 119). -/
def exportUrl (sheetId gid : String) : String :=
  "https://docs.google.com/spreadsheets/d/" ++ sheetId ++ "/export?format=csv&gid=" ++ gid

/-- The alternative query-based CSV export URL (parseCsv.ts line 140). -/
def altExportUrl (sheetId gid : String) : String :=
  "https://docs.google.com/spreadsheets/d/" ++ sheetId ++ "/gviz/tq?tqx=out:csv&gid=" ++ gid

/-- parseCsv.ts line 106. -/
def invalidUrlMsg : String :=
  "Invalid Google Sheets URL. Please make sure you\x27re using a valid Google Sheets link."

/-- parseCsv.ts lines 185-191. -/
def accessDeniedMsg : String :=
  "Access denied. Please make sure the Google Sheet is shared properly:\n\n1. Open your Google Sheet\n2. Click \"Share\" button (top right)\n3. Change \"Restricted\" to \"Anyone with the link\"\n4. Make sure permission is set to \"Viewer\"\n5. Copy the new link and try again"

/-- parseCsv.ts line 197. -/
def notFoundMsg : String :=
  "Google Sheet not found. Please check the URL and make sure the sheet exists."

/-- parseCsv.ts lines 203-207. -/
def badRequestMsg : String :=
  "Bad request (400). This usually means the sheet isn\x27t properly shared. Please:\n\n1. Make sure the sheet is shared as \"Anyone with the link can view\"\n2. Check that the URL is complete and correct\n3. Try sharing the sheet again and copying a fresh link"

/-- parseCsv.ts lines 182-213: the per-status error result for a non-ok
primary response (reached after the 400 alternative, if any, fails). -/
def statusErrorResult (resp : FetchResponse) : ParseResult :=
  if resp.status == 403 then { data := [], error := some accessDeniedMsg }
  else if resp.status == 404 then { data := [], error := some notFoundMsg }
  else if resp.status == 400 then { data := [], error := some badRequestMsg }
  else
    { data := []
      error := some ("Failed to fetch Google Sheet data: " ++ toString resp.status
        ++ " " ++ resp.statusText) }

/-- parseCsv.ts lines 95-262: `parseGoogleSheetUrl`. -/
def parseGoogleSheetUrl (w : SheetWorld) (url : String) : ImportRun :=
  match findSheetId url.data with
  | none => { result := { data := [], error := some invalidUrlMsg }, fetched := [] }
  | some sheetId =>
    let gid := (findGid url.data).getD "0"
    let csvUrl := exportUrl sheetId gid
    match w.fetch csvUrl with
    | .error msg =>
      { result := { data := [], error := some ("Failed to import Google Sheet: " ++ msg) }
        fetched := [csvUrl] }
    | .ok resp =>
      if !resp.ok then
        if resp.status == 400 then
          let altUrl := altExportUrl sheetId gid
          match w.fetch altUrl with
          | .error _ =>
            { result := statusErrorResult resp, fetched := [csvUrl, altUrl] }
          | .ok altResp =>
            if altResp.ok && !altResp.body.isEmpty && !altResp.body.trim.isEmpty then
              match w.papa altResp.body with
              | .complete _errors data =>
                { result := { data := data, error := none }, fetched := [csvUrl, altUrl] }
              | .failure msg =>
                { result := { data := [], error := some ("Failed to parse CSV data: " ++ msg) }
                  fetched := [csvUrl, altUrl] }
            else
              { result := statusErrorResult resp, fetched := [csvUrl, altUrl] }
        else
          { result := statusErrorResult resp, fetched := [csvUrl] }
      else
        let csvText := resp.body
        if csvText.isEmpty || csvText.trim.isEmpty then
          { result := { data := [], error := some "Google Sheet appears to be empty or inaccessible." }
            fetched := [csvUrl] }
        else
          match w.papa csvText with
          | .complete errors data =>
            if errors.length > 0 then
              { result := { data := [], error := some ("Google Sheets parsing error: " ++ errors.headD "") }
                fetched := [csvUrl] }
            else
              { result := { data := data, error := none }, fetched := [csvUrl] }
          | .failure msg =>
            { result := { data := [], error := some ("Failed to parse Google Sheets data: " ++ msg) }
              fetched := [csvUrl] }

/-! ## SubmissionCoordinator: services.js and IngestionForm.tsx

`apiClient.post("/insert", ..)` is an oracle: one `PostOutcome` per
submission.  The JavaScript `x || d` fallbacks are modelled with explicit
truthiness (`undefined`, `0` and `""` are falsy). -/

/-- The fields `postMarketingCompanies` and `uploadRecords` read off
`response.data`; `none` models an absent (`undefined`) field. -/
structure InsertResponseData where
  inserted : Option Int
  failed : Option Int
  errors : Option (List String)
  message : Option String
  schema_hash : Option String
  source : Option String
deriving Repr, DecidableEq

/-- What `apiClient.post` settles to: the response data, or an axios error. -/
inductive PostOutcome where
  | ok (respData : InsertResponseData)
  | err (e : AxiosErr)
deriving Repr, DecidableEq

/-- `x || d` for a possibly-absent number: `undefined` and `0` are falsy. -/
def jsOrNum : Option Int → Int → Int
  | none, d => d
  | some n, d => if n = 0 then d else n

/-- `x || []` for a possibly-absent array (a present array, even empty, is
truthy). -/
def jsOrList : Option (List String) → List String
  | none => []
  | some l => l

/-- `x || d` for a possibly-absent string: `undefined` and `""` are falsy. -/
def jsOrStr : Option String → String → String
  | none, d => d
  | some s, d => if s.isEmpty then d else s

/-- What `postMarketingCompanies` (services.js lines 91-134) returns. -/
inductive CompaniesUploadResult where
  | succeeded (inserted failed : Int) (errors : List String) (message : String)
  | failed (message : String)
deriving Repr, DecidableEq

/-- services.js lines 91-134: `postMarketingCompanies`, as a function of
the settled `apiClient.post("/insert", ..)` outcome and the submitted
records. -/
def postMarketingCompanies (post : PostOutcome) (records : List JsRecord) :
    CompaniesUploadResult :=
  match post with
  | .ok d =>
    .succeeded (jsOrNum d.inserted (records.length : Int)) (jsOrNum d.failed 0)
      (jsOrList d.errors) (jsOrStr d.message "Companies uploaded successfully")
  | .err e => .failed ("Failed to upload companies: " ++ e.message)

/-- The reported inserted count of a `CompaniesUploadResult`. -/
def CompaniesUploadResult.insertedCount : CompaniesUploadResult → Option Int
  | .succeeded i _ _ _ => some i
  | .failed _ => none

/-- The reported failed count of a `CompaniesUploadResult`. -/
def CompaniesUploadResult.failedCount : CompaniesUploadResult → Option Int
  | .succeeded _ f _ _ => some f
  | .failed _ => none

/-- What `uploadRecords` (services.js lines 180-201) returns. -/
inductive UploadRecordsResult where
  | succeeded (inserted failed : Int) (errors : List String)
      (schemaHash : Option String) (source : Option String)
  | failed (message : String)
deriving Repr, DecidableEq

/-- services.js lines 180-201: `uploadRecords`. -/
def uploadRecords (post : PostOutcome) : UploadRecordsResult :=
  match post with
  | .ok d =>
    .succeeded (jsOrNum d.inserted 0) (jsOrNum d.failed 0) (jsOrList d.errors)
      d.schema_hash d.source
  | .err _ => .failed "Failed to upload records"

/-- The reported inserted count of an `UploadRecordsResult`. -/
def UploadRecordsResult.insertedCount : UploadRecordsResult → Option Int
  | .succeeded i _ _ _ _ => some i
  | .failed _ => none

/-! ### `handleSubmit` (src/components/IngestionForm.tsx lines 27-83) -/

/-- A toast shown to the operator. -/
structure Toast where
  destructive : Bool
  title : String
  description : String
deriving Repr, DecidableEq

/-- A network call `handleSubmit` can make: the MCP direct insert or the
traditional `postMarketingCompanies` call. -/
inductive SubmitCall where
  | mcpDirectInsert (records : List JsRecord) (table : String)
  | postCompanies (records : List JsRecord) (table : String)
deriving Repr, DecidableEq

/-- The shape of the result `handleSubmit` consumes. -/
structure SubmitResult where
  success : Bool
  inserted : Int
  failed : Int
  message : String
deriving Repr, DecidableEq

/-- One run of `handleSubmit`: the network calls made, in order, and the
toasts raised. -/
structure SubmitRun where
  calls : List SubmitCall
  toasts : List Toast
deriving Repr, DecidableEq

/-- The default target table of IngestionForm.tsx (line 57 / 61). -/
def defaultTable : String := "marketing db.intake.company_raw_intake"

/-- `s || d` for strings already known present. -/
def jsOrStrV (s d : String) : String := if s.isEmpty then d else s

/-- IngestionForm.tsx lines 27-83: `handleSubmit`, with the awaited insert
call modelled by the `perform` oracle. -/
def handleSubmit (records : List JsRecord) (endpoint targetTable : String)
    (useMCP : Bool) (perform : SubmitCall → SubmitResult) : SubmitRun :=
  if records.length == 0 then
    { calls := [], toasts := [⟨true, "No Data", "Please upload a file first"⟩] }
  else if endpoint.trim.isEmpty then
    { calls := []
      toasts := [⟨true, "Missing Endpoint", "Please enter your Render API endpoint"⟩] }
  else
    let call :=
      if useMCP then SubmitCall.mcpDirectInsert records (jsOrStrV targetTable.trim defaultTable)
      else SubmitCall.postCompanies records (jsOrStrV targetTable.trim defaultTable)
    let result := perform call
    if result.success then
      { calls := [call]
        toasts := [⟨false, "Upload Successful",
          "Inserted " ++ toString result.inserted ++ " records, "
            ++ toString result.failed ++ " failed"⟩] }
    else
      { calls := [call], toasts := [⟨true, "Upload Failed", result.message⟩] }

/-! ## Payload formatting

`formatRenderPayload` (src/cors-template/api/client.js lines 268-278) and
`formatRenderInsertPayload` (src/cors-template/utils/payloadFormatter.js
lines 10-39, with its default options: `addTimestamp = true`,
`timestampField = "created_at"`, no `transformRecord`).  `now` stands for
`new Date().toISOString()`. -/

/-- JavaScript truthiness of a possibly-absent value. -/
def truthyOpt : Option JsVal → Bool
  | none => false
  | some v => truthy v

/-- Property write `r[k] = v` (also `\x7b...r, k: v\x7d`): an existing key
keeps its position and gets the new value, a new key is appended. -/
def jsSet (r : JsRecord) (k : String) (v : JsVal) : JsRecord :=
  if (r.get k).isSome then
    r.map (fun p => if p.1 = k then (k, v) else p)
  else
    r ++ [(k, v)]

/-- client.js lines 272-275: one record of `formatRenderPayload`'s output,
`\x7b...record, created_at: record.created_at || now\x7d`. -/
def formatRenderRecord (now : String) (r : JsRecord) : JsRecord :=
  let v :=
    match r.get "created_at" with
    | some w => if truthy w then w else JsVal.str now
    | none => JsVal.str now
  jsSet r "created_at" v

/-- The `\x7b records, target_table \x7d` insert payload. -/
structure RenderPayload where
  records : List JsRecord
  target_table : String
deriving Repr, DecidableEq

/-- client.js lines 268-278: `formatRenderPayload` on an array argument. -/
def formatRenderPayload (now : String) (records : List JsRecord)
    (targetTable : String) : RenderPayload :=
  { records := records.map (formatRenderRecord now), target_table := targetTable }

/-- payloadFormatter.js lines 19-33 with default options: copy the record
and set `created_at` to `now` unless the record already has a truthy one. -/
def formatRenderInsertRecord (now : String) (r : JsRecord) : JsRecord :=
  if truthyOpt (r.get "created_at") then r else jsSet r "created_at" (.str now)

/-- payloadFormatter.js lines 10-39: `formatRenderInsertPayload` on an
array argument, with default options. -/
def formatRenderInsertPayload (now : String) (records : List JsRecord)
    (targetTable : String) : RenderPayload :=
  { records := records.map (formatRenderInsertRecord now), target_table := targetTable }

/-! ## RecordNormalizer: `RecordPreviewTable` (src/components/RecordPreviewTable.tsx) -/

/-- What the preview renders: the column headers and the previewed rows. -/
structure PreviewView where
  columns : List String
  rows : List JsRecord
deriving Repr, DecidableEq

/-- RecordPreviewTable.tsx lines 10-16: `none` for the early `return null`
on an empty record list; otherwise `previewRecords = records.slice(0, 10)`
and `columns = records.length > 0 ? Object.keys(records[0]) : []`. -/
def recordPreviewTable (records : List JsRecord) : Option PreviewView :=
  if records.length == 0 then none
  else
    some
      { columns := if records.length > 0 then (records.headD []).keys else []
        rows := records.take 10 }

/-! ## Helper lemmas -/

/-- `parseFile` either reports no error or returns an empty record list. -/
theorem parseFile_shape (f : FileInput) :
    (parseFile f).error = none ∨ (parseFile f).data = [] := by
  unfold parseFile
  dsimp only
  repeat' split
  all_goals simp

/-- `parseGoogleSheetUrl` either reports no error or returns an empty
record list. -/
theorem parseGoogleSheetUrl_shape (w : SheetWorld) (url : String) :
    (parseGoogleSheetUrl w url).result.error = none ∨
    (parseGoogleSheetUrl w url).result.data = [] := by
  unfold parseGoogleSheetUrl
  dsimp only
  repeat' split
  all_goals (try simp)
  all_goals (unfold statusErrorResult; repeat' split; all_goals simp)

/-- Rewriting every binding of key `k` leaves lookups of other keys alone. -/
theorem get_mapSet_ne (k k' : String) (v : JsVal) (h : ¬ k' = k) :
    ∀ r : JsRecord,
      JsRecord.get (r.map fun p => if p.1 = k then (k, v) else p) k' = r.get k'
  | [] => rfl
  | (a, b) :: t => by
    simp only [List.map_cons]
    by_cases hak : a = k
    · rw [if_pos hak]
      simp only [JsRecord.get]
      rw [if_neg (Ne.symm h), if_neg (fun hh : a = k' => h (hh ▸ hak))]
      exact get_mapSet_ne k k' v h t
    · rw [if_neg hak]
      simp only [JsRecord.get]
      by_cases hak' : a = k'
      · rw [if_pos hak', if_pos hak']
      · rw [if_neg hak', if_neg hak']
        exact get_mapSet_ne k k' v h t

/-- Appending a binding of key `k` leaves lookups of other keys alone. -/
theorem get_append_ne (k k' : String) (v : JsVal) (h : ¬ k' = k) :
    ∀ r : JsRecord, JsRecord.get (r ++ [(k, v)]) k' = r.get k'
  | [] => by simp [JsRecord.get, Ne.symm h]
  | (a, b) :: t => by
    by_cases hak' : a = k'
    · simp [JsRecord.get, hak']
    · simp [JsRecord.get, hak', get_append_ne k k' v h t]

/-- `jsSet` leaves lookups of other keys alone. -/
theorem get_jsSet_ne (r : JsRecord) (k k' : String) (v : JsVal) (h : ¬ k' = k) :
    (jsSet r k v).get k' = r.get k' := by
  unfold jsSet
  split
  · exact get_mapSet_ne k k' v h r
  · exact get_append_ne k k' v h r

/-- Rewriting the bindings of a present key `k` to `v` makes lookups of `k`
yield `v`. -/
theorem get_mapSet_self (k : String) (v : JsVal) :
    ∀ r : JsRecord, (r.get k).isSome →
      JsRecord.get (r.map fun p => if p.1 = k then (k, v) else p) k = some v
  | [], hs => by simp [JsRecord.get] at hs
  | (a, b) :: t, hs => by
    simp only [List.map_cons]
    by_cases hak : a = k
    · rw [if_pos hak]
      simp [JsRecord.get]
    · rw [if_neg hak]
      simp only [JsRecord.get] at hs ⊢
      rw [if_neg hak] at hs
      rw [if_neg hak]
      exact get_mapSet_self k v t hs

/-- Appending a binding of an absent key `k` makes lookups of `k` yield it. -/
theorem get_append_self (k : String) (v : JsVal) :
    ∀ r : JsRecord, r.get k = none → JsRecord.get (r ++ [(k, v)]) k = some v
  | [], _ => by simp [JsRecord.get]
  | (a, b) :: t, hg => by
    by_cases hak : a = k
    · simp [JsRecord.get, hak] at hg
    · simp only [JsRecord.get, if_neg hak] at hg
      simp [JsRecord.get, hak, get_append_self k v t hg]

/-- After `jsSet r k v`, looking up `k` yields `v`. -/
theorem get_jsSet_self (r : JsRecord) (k : String) (v : JsVal) :
    (jsSet r k v).get k = some v := by
  unfold jsSet
  split
  case isTrue hs => exact get_mapSet_self k v r hs
  case isFalse hs =>
    exact get_append_self k v r (Option.not_isSome_iff_eq_none.mp hs)

/-- Rewriting bindings of a key not present is the identity. -/
theorem mapSet_id_of_not_mem (k : String) (v : JsVal) :
    ∀ r : JsRecord, k ∉ r.keys →
      (r.map fun p => if p.1 = k then (k, v) else p) = r
  | [], _ => rfl
  | (a, b) :: t, h => by
    have hmem : a ∈ JsRecord.keys ((a, b) :: t) := by simp [JsRecord.keys]
    have ha : ¬ a = k := fun hh => h (hh ▸ hmem)
    have ht : k ∉ JsRecord.keys t := by
      intro hh
      apply h
      simp only [JsRecord.keys, List.map_cons, List.mem_cons]
      exact Or.inr hh
    simp [ha, mapSet_id_of_not_mem k v t ht]

/-- On a record with distinct keys, rewriting the bindings of `k` to the
value `k` already has is the identity. -/
theorem mapSet_self_of_nodup (k : String) (v : JsVal) :
    ∀ r : JsRecord, r.keys.Nodup → r.get k = some v →
      (r.map fun p => if p.1 = k then (k, v) else p) = r
  | [], _, hg => by simp [JsRecord.get] at hg
  | (a, b) :: t, hn, hg => by
    simp only [JsRecord.keys, List.map_cons, List.nodup_cons] at hn
    by_cases hak : a = k
    · subst hak
      have hb : b = v := by simpa [JsRecord.get] using hg
      subst hb
      simp only [List.map_cons, ite_self]
      rw [mapSet_id_of_not_mem a b t hn.1]
    · simp only [JsRecord.get, if_neg hak] at hg
      simp only [List.map_cons, if_neg hak]
      rw [mapSet_self_of_nodup k v t hn.2 hg]

/-! ## Claim theorems -/

/-- C1: the claim says the transport client retries a repeatedly failing
network-class request exactly `min(configuredMax, N)` times with exponential
backoff before returning one classified error.  The code disagrees: on the
first failure, `originalRequest._retryCount` is still `undefined`, and the
guard `originalRequest._retryCount < (retryAttempts - 1)` is
`undefined < 2 = false`, so the retry branch never fires.  Every run of
`createRenderApiClient`'s interceptor performs zero retries and waits for no
backoff delay; under five consecutive simulated network failures with the
default `retryAttempts = 3`, the first failure is returned immediately as
the classified error. -/
theorem c1_retry_branch_never_fires :
    (∀ (retryAttempts : Nat) (outcomes : List AttemptOutcome),
      (runRenderRequest retryAttempts outcomes).retriesPerformed = 0 ∧
      (runRenderRequest retryAttempts outcomes).delays = []) ∧
    (runRenderRequest 3 (List.replicate 5 (.fail networkFailure))).outcome =
      .error (enhancedErrorOf networkFailure none) ∧
    (enhancedErrorOf networkFailure none).isNetworkError = true := by
  refine ⟨?_, rfl, rfl⟩
  intro ra outcomes
  cases outcomes with
  | nil => exact ⟨rfl, rfl⟩
  | cons o rest =>
    cases o with
    | ok r => exact ⟨rfl, rfl⟩
    | fail e =>
      simp [runRenderRequest, renderInterceptor, jsLtOpt]

/-- C5: an attempt that yields an HTTP response with a status of 400 or
more (and so a non-network, non-timeout axios code) is never retried: the
interceptor immediately rejects with the enhanced error carrying the status
and the response body, with all of the Cors/Network/Timeout flags false
(the HttpStatus classification) and a retry count of zero — and no failure
whose code is not ERR_NETWORK is ever retried, whatever the request state. -/
theorem c5_http_status_returned_without_retry (retryAttempts : Nat)
    (e : AxiosErr) (resp : HttpResponse) (rest : List AttemptOutcome)
    (hresp : e.response = some resp) (hstatus : 400 ≤ resp.status)
    (hnet : e.code ≠ "ERR_NETWORK") (habort : e.code ≠ "ECONNABORTED") :
    runRenderRequest retryAttempts (.fail e :: rest) =
      { outcome := .error (enhancedErrorOf e none)
        retriesPerformed := 0
        delays := [] } ∧
    (enhancedErrorOf e none).status = some resp.status ∧
    (enhancedErrorOf e none).data = some resp.body ∧
    (enhancedErrorOf e none).isCorsError = false ∧
    (enhancedErrorOf e none).isNetworkError = false ∧
    (enhancedErrorOf e none).isTimeout = false ∧
    (enhancedErrorOf e none).retryCount = 0 ∧
    ∀ (retryFlag : Bool) (rc : Option Nat),
      (renderInterceptor retryAttempts retryFlag rc (.fail e :: rest)).retriesPerformed = 0 := by
  have hcode : (e.code == "ERR_NETWORK") = false := by
    simp [hnet]
  have habort' : (e.code == "ECONNABORTED") = false := by
    simp [habort]
  have hzero : (resp.status == 0) = false := by
    have : resp.status ≠ 0 := by omega
    simp [this]
  refine ⟨?_, ?_, ?_, ?_, ?_, ?_, rfl, ?_⟩
  · simp [runRenderRequest, renderInterceptor, hcode]
  · simp [enhancedErrorOf, hresp]
  · simp [enhancedErrorOf, hresp]
  · simp [enhancedErrorOf, hcode, statusIsZero, hresp, hzero]
  · simp [enhancedErrorOf, hcode]
  · simp [enhancedErrorOf, habort']
  · intro retryFlag rc
    simp [renderInterceptor, hcode]

/-- An axios error for an HTTP 403 response, as axios raises it. -/
def httpError403 : AxiosErr :=
  ⟨"ERR_BAD_REQUEST", "Request failed with status code 403",
    some ⟨403, "Forbidden", JsVal.jnull⟩⟩

/-- Witness for C5 at a concrete 403 response. -/
theorem c5_witness_403 :
    runRenderRequest 3 [AttemptOutcome.fail httpError403] =
      { outcome := .error (enhancedErrorOf httpError403 none)
        retriesPerformed := 0
        delays := [] } :=
  (c5_http_status_returned_without_retry 3 httpError403 ⟨403, "Forbidden", JsVal.jnull⟩ []
    rfl (by decide) (by decide) (by decide)).1

/-- C6: a submission with an empty record list is rejected locally with the
"No Data" toast, and neither the MCP insert nor `postMarketingCompanies`
is ever invoked: the run performs no network call at all. -/
theorem c6_empty_records_rejected_locally (records : List JsRecord)
    (endpoint targetTable : String) (useMCP : Bool)
    (perform : SubmitCall → SubmitResult) (h : records = []) :
    handleSubmit records endpoint targetTable useMCP perform =
      { calls := [], toasts := [⟨true, "No Data", "Please upload a file first"⟩] } := by
  subst h
  rfl

/-- Witness for C6 at a concrete empty submission. -/
theorem c6_witness_empty :
    handleSubmit [] "https://render-marketing-db.onrender.com" "" true
        (fun _ => ⟨true, 0, 0, ""⟩) =
      { calls := [], toasts := [⟨true, "No Data", "Please upload a file first"⟩] } :=
  c6_empty_records_rejected_locally [] _ _ _ _ rfl

/-- C7 counterexample: the claim says no failure is classified as both Cors
and Network.  A plain ERR_NETWORK failure (the generic network-class
failure) is flagged as both by `createRenderApiClient`'s categorization,
and likewise by `createApiClient`'s in apiClient.ts. -/
theorem c7_counterexample_overlap :
    (enhancedErrorOf networkFailure none).isCorsError = true ∧
    (enhancedErrorOf networkFailure none).isNetworkError = true ∧
    (tsEnhancedErrorOf networkFailure).isCorsError = true ∧
    (tsEnhancedErrorOf networkFailure).isNetworkError = true := by
  refine ⟨rfl, rfl, ?_, rfl⟩
  decide

/-- C7 amended: the classifications are boolean flags, not disjoint
classes.  In client.js every failure flagged Network (code ERR_NETWORK) is
also flagged Cors (Cors additionally covers status-0 responses), and in
apiClient.ts every ERR_NETWORK failure is flagged both as well. -/
theorem c7_amended_network_implies_cors (e : AxiosErr) (rc : Option Nat) :
    ((enhancedErrorOf e rc).isNetworkError = true →
      (enhancedErrorOf e rc).isCorsError = true) ∧
    ((enhancedErrorOf e rc).isCorsError =
      ((enhancedErrorOf e rc).isNetworkError || statusIsZero e.response)) ∧
    (e.code = "ERR_NETWORK" →
      (tsEnhancedErrorOf e).isCorsError = true ∧
      (tsEnhancedErrorOf e).isNetworkError = true) := by
  refine ⟨?_, rfl, ?_⟩
  · intro h
    simp only [enhancedErrorOf] at h ⊢
    rw [h]
    rfl
  · intro h
    constructor
    · simp [tsEnhancedErrorOf, h]
    · simp [tsEnhancedErrorOf, h]

/-- C9: a URL without a `/spreadsheets/d/<id>` segment (the regular
expression does not match) yields the "invalid URL" import error with an
empty record list, and no URL is ever fetched. -/
theorem c9_invalid_url_no_network (w : SheetWorld) (url : String)
    (h : findSheetId url.data = none) :
    parseGoogleSheetUrl w url =
      { result := { data := [], error := some invalidUrlMsg }, fetched := [] } := by
  unfold parseGoogleSheetUrl
  rw [h]

/-- A world whose every fetch fails; used to witness that no fetch happens. -/
def unreachableWorld : SheetWorld :=
  ⟨fun _ => .error "Network Error", fun _ => .complete [] []⟩

/-- Witness for C9 at a concrete non-spreadsheet URL. -/
theorem c9_witness_plain_url :
    parseGoogleSheetUrl unreachableWorld "https://example.com/no-sheet-here" =
      { result := { data := [], error := some invalidUrlMsg }, fetched := [] } :=
  c9_invalid_url_no_network unreachableWorld "https://example.com/no-sheet-here" (by decide)

/-- C10: for a non-empty record list the preview's columns are exactly the
keys of the first record, in encounter order (a field first appearing in a
later record is never a column), and the previewed rows are the prefix of
at most the first 10 records of the unchanged input list. -/
theorem c10_preview_first_record_columns (records : List JsRecord)
    (h : records ≠ []) :
    recordPreviewTable records =
      some { columns := (records.headD []).keys, rows := records.take 10 } ∧
    (records.take 10).length ≤ 10 ∧
    (∀ f, f ∉ (records.headD []).keys →
      ∀ v, recordPreviewTable records = some v → f ∉ v.columns) := by
  cases records with
  | nil => exact absurd rfl h
  | cons r t =>
    have hview : recordPreviewTable (r :: t) =
        some { columns := JsRecord.keys ((r :: t).headD []), rows := (r :: t).take 10 } := by
      simp [recordPreviewTable]
    refine ⟨hview, ?_, ?_⟩
    · exact List.length_take_le 10 (r :: t)
    · intro f hf v hv
      rw [hview] at hv
      cases hv
      exact hf

/-- Two concrete records; the second has a field the first lacks. -/
def demoRecords : List JsRecord :=
  [[("company_name", JsVal.str "Acme"), ("domain", JsVal.str "acme.com")],
   [("company_name", JsVal.str "Globex"), ("extra", JsVal.str "later-only")]]

/-- Witness for C10 at a concrete two-record list. -/
theorem c10_witness_demo :
    recordPreviewTable demoRecords =
      some { columns := (demoRecords.headD []).keys, rows := demoRecords.take 10 } ∧
    (demoRecords.take 10).length ≤ 10 ∧
    (∀ f, f ∉ (demoRecords.headD []).keys →
      ∀ v, recordPreviewTable demoRecords = some v → f ∉ v.columns) :=
  c10_preview_first_record_columns demoRecords (by decide)

/-- C2: every result of `parseFile` or `parseGoogleSheetUrl` that carries a
parse/import error has an empty record list — no input yields both an
error and a non-empty partial record list. -/
theorem c2_error_means_empty_records :
    (∀ f : FileInput, (parseFile f).error.isSome → (parseFile f).data = []) ∧
    (∀ (w : SheetWorld) (url : String),
      (parseGoogleSheetUrl w url).result.error.isSome →
      (parseGoogleSheetUrl w url).result.data = []) := by
  constructor
  · intro f h
    rcases parseFile_shape f with he | hd
    · rw [he] at h
      exact absurd h (by simp)
    · exact hd
  · intro w url h
    rcases parseGoogleSheetUrl_shape w url with he | hd
    · rw [he] at h
      exact absurd h (by simp)
    · exact hd

/-- A world whose every fetch answers HTTP 403 with an empty body. -/
def deny403World : SheetWorld :=
  ⟨fun _ => .ok ⟨false, 403, "Forbidden", ""⟩, fun _ => .complete [] []⟩

/-- A well-formed spreadsheet URL with sheet id abc123 and no tab id. -/
def demoSheetUrl : String := "https://docs.google.com/spreadsheets/d/abc123/edit"

/-- C3 counterexample: the claim says an ordered list of three export-URL
candidates is built and every candidate is attempted before the importer
gives up.  On a valid spreadsheet URL whose primary export GET answers 403,
the importer gives up immediately with the access-denied error after
fetching exactly one URL: no second or third candidate is ever attempted. -/
theorem c3_counterexample_one_candidate :
    (parseGoogleSheetUrl deny403World demoSheetUrl).fetched =
      [exportUrl "abc123" "0"] ∧
    (parseGoogleSheetUrl deny403World demoSheetUrl).result.error =
      some accessDeniedMsg := by
  constructor <;> rfl

/-- C3 amended: the importer builds only the primary CSV-export URL (tab id
defaulting to 0); when its GET answers with a non-ok response it tries the
single query-based alternative candidate only when the status is exactly
400, and on any other failure status it gives up at once with the
status-specific error after that single attempt. -/
theorem c3_amended_second_candidate_only_on_400 (w : SheetWorld)
    (url sheetId : String) (resp : FetchResponse)
    (hid : findSheetId url.data = some sheetId)
    (hfetch : w.fetch (exportUrl sheetId ((findGid url.data).getD "0")) = .ok resp)
    (hok : resp.ok = false) :
    (resp.status ≠ 400 →
      (parseGoogleSheetUrl w url).fetched =
        [exportUrl sheetId ((findGid url.data).getD "0")] ∧
      (parseGoogleSheetUrl w url).result = statusErrorResult resp) ∧
    (resp.status = 400 →
      (parseGoogleSheetUrl w url).fetched =
        [exportUrl sheetId ((findGid url.data).getD "0"),
         altExportUrl sheetId ((findGid url.data).getD "0")]) := by
  constructor
  · intro hne
    have h400 : (resp.status == 400) = false := by simp [hne]
    unfold parseGoogleSheetUrl
    rw [hid]
    dsimp only
    rw [hfetch]
    simp [hok, h400]
  · intro heq
    have h400 : (resp.status == 400) = true := by simp [heq]
    unfold parseGoogleSheetUrl
    rw [hid]
    dsimp only
    rw [hfetch]
    rcases halt : w.fetch (altExportUrl sheetId ((findGid url.data).getD "0")) with msg | altResp
    · simp [hok, h400, halt]
    · cases hpapa : w.papa altResp.body with
      | complete errs data =>
        simp [hok, h400, halt, hpapa]
        split_ifs <;> rfl
      | failure msg =>
        simp [hok, h400, halt, hpapa]
        split_ifs <;> rfl

/-- Witness for the C3 amended theorem at the concrete 403 world. -/
theorem c3_amended_witness_403 :
    (parseGoogleSheetUrl deny403World demoSheetUrl).fetched =
      [exportUrl "abc123" "0"] ∧
    (parseGoogleSheetUrl deny403World demoSheetUrl).result =
      statusErrorResult ⟨false, 403, "Forbidden", ""⟩ :=
  (c3_amended_second_candidate_only_on_400 deny403World demoSheetUrl "abc123"
    ⟨false, 403, "Forbidden", ""⟩ (by decide) rfl rfl).1 (by decide)

/-- Two concrete submitted records. -/
def twoRecords : List JsRecord :=
  [[("company_name", JsVal.str "Acme")], [("company_name", JsVal.str "Globex")]]

/-- C4 counterexample: the claim says the coordinator reports exactly the
server-reported counts, falling back precisely when the server omits them.
On a successful response that explicitly reports inserted = 0 and
failed = 0 for a two-record submission, `postMarketingCompanies` reports
inserted = 2: the `||` fallback also fires on a server-reported 0. -/
theorem c4_counterexample_reported_zero_replaced :
    postMarketingCompanies
        (.ok { inserted := some 0, failed := some 0, errors := some []
               message := some "ok", schema_hash := none, source := none })
        twoRecords =
      .succeeded 2 0 [] "ok" := by decide

/-- C4 amended: on a successful transport response the coordinator reports
the server counts whenever they are present and non-zero; whenever the
server's count is absent or zero (both falsy), `postMarketingCompanies`
falls back to "all records inserted" / "zero failed", and `uploadRecords`
falls back to zero inserted and zero failed. -/
theorem c4_amended_fallback_on_falsy_counts (d : InsertResponseData)
    (records : List JsRecord) :
    (∀ i : Int, d.inserted = some i → i ≠ 0 →
      (postMarketingCompanies (.ok d) records).insertedCount = some i) ∧
    ((d.inserted = none ∨ d.inserted = some 0) →
      (postMarketingCompanies (.ok d) records).insertedCount =
        some (records.length : Int)) ∧
    (∀ j : Int, d.failed = some j → j ≠ 0 →
      (postMarketingCompanies (.ok d) records).failedCount = some j) ∧
    ((d.failed = none ∨ d.failed = some 0) →
      (postMarketingCompanies (.ok d) records).failedCount = some 0) ∧
    ((d.inserted = none ∨ d.inserted = some 0) →
      (uploadRecords (.ok d)).insertedCount = some 0) := by
  refine ⟨?_, ?_, ?_, ?_, ?_⟩
  · intro i hi hne
    simp [postMarketingCompanies, CompaniesUploadResult.insertedCount, jsOrNum, hi, hne]
  · rintro (hi | hi) <;>
      simp [postMarketingCompanies, CompaniesUploadResult.insertedCount, jsOrNum, hi]
  · intro j hj hne
    simp [postMarketingCompanies, CompaniesUploadResult.failedCount, jsOrNum, hj, hne]
  · rintro (hj | hj) <;>
      simp [postMarketingCompanies, CompaniesUploadResult.failedCount, jsOrNum, hj]
  · rintro (hi | hi) <;> simp [uploadRecords, UploadRecordsResult.insertedCount, jsOrNum, hi]

/-- A fixed value for `new Date().toISOString()`. -/
def nowStamp : String := "2024-01-01T00:00:00.000Z"

/-- A record without a `created_at` field. -/
def bareRecord : JsRecord := [("company_name", JsVal.str "Acme")]

/-- C8 counterexample: the claim says formatting adds, removes and rewrites
no fields.  Formatting a record that lacks `created_at` adds that field
(set to the current timestamp) in both formatters, so the payload's records
are not exactly the input records. -/
theorem c8_counterexample_field_added :
    (formatRenderPayload nowStamp [bareRecord] "company.marketing_company").records ≠
      [bareRecord] ∧
    (formatRenderPayload nowStamp [bareRecord] "company.marketing_company").records =
      [[("company_name", JsVal.str "Acme"), ("created_at", JsVal.str nowStamp)]] ∧
    (formatRenderInsertPayload nowStamp [bareRecord] "company.marketing_company").records =
      [[("company_name", JsVal.str "Acme"), ("created_at", JsVal.str nowStamp)]] := by
  refine ⟨by decide, rfl, rfl⟩

/-- C8 amended: formatting preserves the name and value of every field
other than `created_at`; a record whose `created_at` is present and truthy
passes through unchanged; and exactly when `created_at` is absent or falsy,
the formatters set it to the current timestamp — the one documented
deviation from an identity round-trip. -/
theorem c8_amended_identity_except_created_at (now : String) (r : JsRecord) :
    (∀ k, k ≠ "created_at" → (formatRenderRecord now r).get k = r.get k) ∧
    (∀ k, k ≠ "created_at" → (formatRenderInsertRecord now r).get k = r.get k) ∧
    (r.keys.Nodup → ∀ v, r.get "created_at" = some v → truthy v = true →
      formatRenderRecord now r = r) ∧
    (truthyOpt (r.get "created_at") = true → formatRenderInsertRecord now r = r) ∧
    (truthyOpt (r.get "created_at") = false →
      (formatRenderRecord now r).get "created_at" = some (JsVal.str now) ∧
      (formatRenderInsertRecord now r).get "created_at" = some (JsVal.str now)) ∧
    (∀ (records : List JsRecord) (tt : String),
      (formatRenderPayload now records tt).target_table = tt ∧
      (formatRenderPayload now records tt).records.length = records.length) := by
  refine ⟨?_, ?_, ?_, ?_, ?_, ?_⟩
  · intro k hk
    unfold formatRenderRecord
    exact get_jsSet_ne r "created_at" k _ (Ne.symm (Ne.symm hk))
  · intro k hk
    unfold formatRenderInsertRecord
    split
    · rfl
    · exact get_jsSet_ne r "created_at" k _ hk
  · intro hnod v hv htr
    unfold formatRenderRecord
    rw [hv]
    dsimp only
    rw [if_pos htr]
    unfold jsSet
    rw [hv]
    simp only [Option.isSome_some, if_true]
    exact mapSet_self_of_nodup "created_at" v r hnod hv
  · intro htr
    unfold formatRenderInsertRecord
    rw [if_pos htr]
  · intro hfl
    constructor
    · unfold formatRenderRecord
      rcases hg : r.get "created_at" with _ | w
      · exact get_jsSet_self r "created_at" (JsVal.str now)
      · rw [hg] at hfl
        have hw : truthy w = false := hfl
        dsimp only
        rw [if_neg (by simp [hw])]
        exact get_jsSet_self r "created_at" (JsVal.str now)
    · unfold formatRenderInsertRecord
      rw [if_neg (by simp [hfl])]
      exact get_jsSet_self r "created_at" (JsVal.str now)
  · intro records tt
    exact ⟨rfl, by simp [formatRenderPayload]⟩

end Ingest
